import Mathlib

/-!
Shallow embedding of the workflow core of the shopify-medusa connector:
the return lifecycle routes, the delivery lifecycle routes, the Stuart
webhook handler and the product-mapping upsert, translated from the
route handlers in the source. The relational store is a record of lists;
each route handler becomes a pure function from the store, the request
and the outcomes of the external calls it performs, to a response, the
new store, the list of external calls made and the warning log lines.
Timestamps are integers (milliseconds since the epoch), as produced by
Date.now in the source.
-/

namespace SMC

/-- Record of one outbound external call performed by a handler. -/
inductive ExtCall where
  | stripeRefund (paymentIntent : String) (amount : Int)
  | stuartCreatePickup (orderId : String)
  | stuartCreateDeliveryJob (orderId : String)
  | stuartGetJobStatus (jobId : String)
  | notify (template : String)
  deriving Repr, DecidableEq

/-- Customer row, embedded in the order as the Prisma include does. -/
structure Customer where
  name : String := ""
  email : String := ""
  phone : String := ""
  address : String := ""
  deriving Repr, DecidableEq

/-- One line item of an order. -/
structure OrderItem where
  id : String
  name : String := ""
  quantity : Nat := 1
  deriving Repr, DecidableEq

/-- Order row. -/
structure Order where
  id : String
  customerId : String := ""
  customer : Customer := {}
  items : List OrderItem := []
  total : Int := 0
  createdAt : Int := 0
  status : String := ""
  stripePaymentIntentId : String := ""
  deliveryAddress : String := ""
  deliveryId : Option String := none
  stuartJobId : Option String := none
  deliveryStatus : Option String := none
  deriving Repr, DecidableEq

/-- Return row. -/
structure Return where
  id : String
  orderId : String := ""
  customerId : String := ""
  reason : Option String := none
  itemIds : List String := []
  comments : Option String := none
  status : String := ""
  returnAmount : Int := 0
  stuartJobId : Option String := none
  stuartPickupJobId : Option String := none
  approvedAt : Option Int := none
  rejectedAt : Option Int := none
  refundedAt : Option Int := none
  deliveredAt : Option Int := none
  pickupDate : Option Int := none
  stripeRefundId : Option String := none
  createdAt : Int := 0
  deriving Repr, DecidableEq

/-- Immutable refund record written after a successful refund. -/
structure RefundRecord where
  returnId : String
  orderId : String
  amount : Int
  stripeRefundId : String
  status : String
  deriving Repr, DecidableEq

/-- Unread merchant inbox entry. -/
structure MerchantNote where
  type : String
  title : String
  message : String
  relatedId : String
  status : String
  deriving Repr, DecidableEq

/-- Delivery row. -/
structure Delivery where
  id : String
  orderId : String := ""
  stuartJobId : Option String := none
  customerName : String := ""
  customerPhone : String := ""
  customerEmail : String := ""
  deliveryAddress : String := ""
  status : String := ""
  price : Int := 0
  estimatedDeliveryTime : Option Int := none
  quoteId : Option String := none
  driverName : Option String := none
  driverPhone : Option String := none
  lastUpdate : Option Int := none
  cancellationReason : Option String := none
  createdAt : Int := 0
  deriving Repr, DecidableEq

/-- Delivery quote row. -/
structure DeliveryQuote where
  id : String
  orderId : String := ""
  stuartQuoteId : String := ""
  price : Int := 0
  estimatedTime : Int := 0
  deliveryType : String := ""
  expiresAt : Int := 0
  status : String := ""
  deriving Repr, DecidableEq

/-- Local mirror of a Stuart job, keyed by the provider-issued id. -/
structure StuartJob where
  id : String
  stuartJobId : String
  status : String := ""
  rawData : String := ""
  deriving Repr, DecidableEq

/-- Webhook audit log row. -/
structure WebhookLog where
  source : String
  event : String
  processed : Bool
  error : Option String := none
  deriving Repr, DecidableEq

/-- Mapping from a Shopify product to the Medusa product it was synced to,
scoped to a store. -/
structure ProductMapping where
  storeId : String
  shopifyProductId : String
  medusaProductId : String
  medusaHandle : String := ""
  lastSyncedAt : Int := 0
  deriving Repr, DecidableEq

/-- The relational store. -/
structure DB where
  orders : List Order := []
  returns : List Return := []
  refunds : List RefundRecord := []
  merchantNotes : List MerchantNote := []
  deliveries : List Delivery := []
  deliveryQuotes : List DeliveryQuote := []
  stuartJobs : List StuartJob := []
  webhookLogs : List WebhookLog := []
  productMappings : List ProductMapping := []
  deriving Repr, DecidableEq

/-- Prisma-style update: rewrite every row matching the predicate.
Route handlers always use it with a unique-id predicate after a
successful findUnique, so exactly the found row is rewritten. -/
def updateWhere (p : α → Bool) (f : α → α) (l : List α) : List α :=
  l.map (fun x => if p x then f x else x)

/-- Result of one route handler: response, new store, external calls made,
console warning lines. -/
structure HandlerOut (ρ : Type) where
  resp : ρ
  db : DB
  calls : List ExtCall := []
  warns : List String := []
  deriving Repr

/-- Plain JSON response: HTTP status plus optional error message. -/
structure Resp where
  status : Nat
  error : Option String := none
  deriving Repr, DecidableEq

/-- JavaScript x or y on numbers: y when x is absent or zero (falsy). -/
def jsNumOr (x : Option Int) (d : Int) : Int :=
  match x with
  | some a => if a == 0 then d else a
  | none => d

/-- Valid return statuses (Object.values of RETURN_STATUS). -/
def RETURN_STATUS_VALUES : List String :=
  ["INITIATED", "PENDING_APPROVAL", "APPROVED", "REJECTED",
   "PICKUP_SCHEDULED", "PICKED_UP", "IN_TRANSIT", "RECEIVED", "REFUNDED"]

/-- Valid delivery statuses (Object.values of DELIVERY_STATUS). -/
def DELIVERY_STATUS_VALUES : List String :=
  ["QUOTE_REQUESTED", "QUOTE_PROVIDED", "CONFIRMED", "PICKING_UP",
   "IN_TRANSIT", "ARRIVING", "DELIVERED", "DELIVERY_FAILED", "CANCELLED"]

/-! ## Return lifecycle routes (POST /returns/...) -/

/-- Request body of POST /returns/initiate. -/
structure InitiateBody where
  orderId : Option String := none
  reason : Option String := none
  itemIds : Option (List String) := none
  comments : Option String := none
  deriving Repr, DecidableEq

/-- POST /returns/initiate. The fresh row id is passed in as newId. -/
def initiate (db : DB) (now : Int) (newId : String) (body : InitiateBody) :
    HandlerOut Resp :=
  match body.orderId with
  | none => { resp := ⟨400, some "orderId is required"⟩, db := db }
  | some oid =>
    if oid == "" then
      { resp := ⟨400, some "orderId is required"⟩, db := db }
    else
      match db.orders.find? (fun o => o.id == oid) with
      | none => { resp := ⟨404, some "Order not found"⟩, db := db }
      | some order =>
        let daysSinceOrder := Int.fdiv (now - order.createdAt) 86400000
        if daysSinceOrder > 30 then
          { resp := ⟨400, some "Return window expired (30 days)"⟩, db := db }
        else
          let returnRequest : Return :=
            { id := newId
              orderId := oid
              customerId := order.customerId
              reason := body.reason
              itemIds := body.itemIds.getD (order.items.map (fun i => i.id))
              comments := body.comments
              status := "INITIATED"
              returnAmount := order.total
              createdAt := now }
          let note : MerchantNote :=
            { type := "RETURN_INITIATED"
              title := "New Return: " ++ newId
              message := "Customer initiated return for order " ++ oid
              relatedId := newId
              status := "UNREAD" }
          { resp := ⟨201, none⟩
            db := { db with
                    returns := db.returns ++ [returnRequest]
                    merchantNotes := db.merchantNotes ++ [note] }
            calls := [ExtCall.notify "send-return-initiated"] }

/-- Stuart pickup-job creation response. -/
structure PickupJob where
  id : String
  scheduledDate : Int := 0
  deriving Repr, DecidableEq

/-- POST /returns/:id/approve. The stuart argument is the outcome of the
single createReturnPickupJob call the handler performs. -/
def approve (db : DB) (now : Int) (returnId : String)
    (returnAmount : Option Int) (stuart : Except String PickupJob) :
    HandlerOut Resp :=
  match db.returns.find? (fun r => r.id == returnId) with
  | none => { resp := ⟨404, some "Return not found"⟩, db := db }
  | some ret =>
    match db.orders.find? (fun o => o.id == ret.orderId) with
    | none =>
      -- returnRequest.order is null: the handler throws reading
      -- order.total, or, when returnAmount is truthy, only later at
      -- order.customer.address, after the APPROVED update already ran
      match returnAmount with
      | some a =>
        if a == 0 then
          { resp := ⟨500, some "TypeError"⟩, db := db }
        else
          { resp := ⟨500, some "TypeError"⟩
            db := { db with
                    returns := updateWhere (fun r => r.id == returnId)
                      (fun r => { r with
                                  status := "APPROVED"
                                  approvedAt := some now
                                  returnAmount := a }) db.returns } }
      | none => { resp := ⟨500, some "TypeError"⟩, db := db }
    | some order =>
      let amt := jsNumOr returnAmount order.total
      let db1 := { db with
                   returns := updateWhere (fun r => r.id == returnId)
                     (fun r => { r with
                                 status := "APPROVED"
                                 approvedAt := some now
                                 returnAmount := amt }) db.returns }
      match stuart with
      | .error e =>
        { resp := ⟨500, some e⟩, db := db1
          calls := [ExtCall.stuartCreatePickup ret.orderId] }
      | .ok job =>
        let db2 := { db1 with
                     returns := updateWhere (fun r => r.id == returnId)
                       (fun r => { r with
                                   stuartJobId := some job.id
                                   status := "PICKUP_SCHEDULED"
                                   pickupDate := some job.scheduledDate })
                       db1.returns }
        { resp := ⟨200, none⟩, db := db2
          calls := [ExtCall.stuartCreatePickup ret.orderId,
                    ExtCall.notify "send-return-approved"] }

/-- Stripe refund object, as returned by stripe.refunds.create. -/
structure StripeRefund where
  id : String
  deriving Repr, DecidableEq

/-- POST /returns/:id/process-refund. The stripe argument is the outcome
of the single stripe.refunds.create call the handler performs. -/
def processRefund (db : DB) (now : Int) (returnId : String)
    (stripe : Except String StripeRefund) : HandlerOut Resp :=
  match db.returns.find? (fun r => r.id == returnId) with
  | none => { resp := ⟨404, some "Return not found"⟩, db := db }
  | some ret =>
    if ret.status == "RECEIVED" then
      match db.orders.find? (fun o => o.id == ret.orderId) with
      | none =>
        -- returnRequest.order is null: the handler throws reading
        -- order.stripePaymentIntentId before any write
        { resp := ⟨500, some "TypeError"⟩, db := db }
      | some order =>
        let call := ExtCall.stripeRefund order.stripePaymentIntentId
          ret.returnAmount
        match stripe with
        | .error e => { resp := ⟨500, some e⟩, db := db, calls := [call] }
        | .ok refund =>
          let record : RefundRecord :=
            { returnId := returnId
              orderId := ret.orderId
              amount := ret.returnAmount
              stripeRefundId := refund.id
              status := "PROCESSED" }
          { resp := ⟨200, none⟩
            db := { db with
                    returns := updateWhere (fun r => r.id == returnId)
                      (fun r => { r with
                                  status := "REFUNDED"
                                  refundedAt := some now
                                  stripeRefundId := some refund.id })
                      db.returns
                    refunds := db.refunds ++ [record] }
            calls := [call, ExtCall.notify "send-refund-processed"] }
    else
      { resp := ⟨400,
          some "Return must be received before processing refund"⟩
        db := db }

/-! ## Paginated status listings (GET .../status/:status) -/

/-- Insert keeping a descending order on the key. -/
def insertDescBy (key : α → Int) (a : α) : List α → List α
  | [] => [a]
  | x :: xs =>
    if key a ≥ key x then a :: x :: xs else x :: insertDescBy key a xs

/-- Sort descending on the key; models orderBy desc in findMany. -/
def sortDescBy (key : α → Int) (l : List α) : List α :=
  l.foldr (insertDescBy key) []

/-- Response of a paginated listing route. -/
structure ListResp (α : Type) where
  status : Nat
  error : Option String := none
  items : List α := []
  total : Nat := 0
  limit : Nat := 0
  offset : Nat := 0
  deriving Repr

/-- GET /returns/status/:status with query parameters limit and offset
(already parsed to naturals). -/
def listReturnsByStatus (db : DB) (status : String) (limit offset : Nat) :
    ListResp Return :=
  if RETURN_STATUS_VALUES.contains status then
    let rows := sortDescBy (fun r => r.createdAt)
      (db.returns.filter (fun r => r.status == status))
    let total := (db.returns.filter (fun r => r.status == status)).length
    { status := 200
      items := (rows.drop offset).take (min limit 100)
      total := total
      limit := min limit 100
      offset := offset }
  else
    { status := 400, error := some "Invalid status" }

/-- GET /delivery/status/:status with query parameters limit and offset
(already parsed to naturals). -/
def listDeliveriesByStatus (db : DB) (status : String) (limit offset : Nat) :
    ListResp Delivery :=
  if DELIVERY_STATUS_VALUES.contains status then
    let rows := sortDescBy (fun d => d.createdAt)
      (db.deliveries.filter (fun d => d.status == status))
    let total := (db.deliveries.filter (fun d => d.status == status)).length
    { status := 200
      items := (rows.drop offset).take (min limit 100)
      total := total
      limit := min limit 100
      offset := offset }
  else
    { status := 400, error := some "Invalid status" }

/-! ## Delivery lifecycle routes (POST /delivery/...) -/

/-- Stuart delivery-job creation response. -/
structure DeliveryJob where
  id : String
  scheduledDate : Int := 0
  deriving Repr, DecidableEq

/-- POST /delivery/orders/:orderId/confirm. The stuart argument is the
outcome of the single createDeliveryJob call; the fresh delivery row id
is passed in as newId. -/
def confirm (db : DB) (orderId : String) (quoteId : Option String)
    (stuart : Except String DeliveryJob) (newId : String) :
    HandlerOut Resp :=
  match quoteId with
  | none => { resp := ⟨400, some "quoteId required"⟩, db := db }
  | some qid =>
    if qid == "" then
      { resp := ⟨400, some "quoteId required"⟩, db := db }
    else
      match db.deliveryQuotes.find? (fun q => q.id == qid) with
      | none =>
        { resp := ⟨400, some "Quote not found or expired"⟩, db := db }
      | some quote =>
        if quote.status == "ACTIVE" then
          match db.orders.find? (fun o => o.id == orderId) with
          | none => { resp := ⟨404, some "Order not found"⟩, db := db }
          | some order =>
            match stuart with
            | .error e =>
              { resp := ⟨500, some e⟩, db := db
                calls := [ExtCall.stuartCreateDeliveryJob orderId] }
            | .ok job =>
              let delivery : Delivery :=
                { id := newId
                  orderId := orderId
                  stuartJobId := some job.id
                  customerName := order.customer.name
                  customerPhone := order.customer.phone
                  customerEmail := order.customer.email
                  deliveryAddress := order.deliveryAddress
                  status := "CONFIRMED"
                  price := quote.price
                  estimatedDeliveryTime := some job.scheduledDate
                  quoteId := some qid }
              let db1 := { db with
                deliveries := db.deliveries ++ [delivery]
                deliveryQuotes := updateWhere (fun q => q.id == qid)
                  (fun q => { q with status := "ACCEPTED" })
                  db.deliveryQuotes
                orders := updateWhere (fun o => o.id == orderId)
                  (fun o => { o with
                              status := "DELIVERY_CONFIRMED"
                              deliveryId := some newId }) db.orders }
              { resp := ⟨200, none⟩, db := db1
                calls := [ExtCall.stuartCreateDeliveryJob orderId] }
        else
          { resp := ⟨400, some "Quote not found or expired"⟩, db := db }

/-- Live job status returned by stuartClient.getJobStatus. -/
structure JobStatus where
  status : String
  driverName : Option String := none
  driverPhone : Option String := none
  deriving Repr, DecidableEq

/-- Response of GET /delivery/orders/:orderId: HTTP status, optional
error, the status field of the delivery row sent in the body, and the
live Stuart status when one was fetched. -/
structure GetStatusResp where
  status : Nat
  error : Option String := none
  deliveryStatus : Option String := none
  stuartStatus : Option String := none
  deriving Repr, DecidableEq

/-- findFirst with orderBy createdAt desc: the matching row with the
greatest creation timestamp. -/
def latestDeliveryFor (ds : List Delivery) (orderId : String) :
    Option Delivery :=
  (sortDescBy (fun d => d.createdAt)
    (ds.filter (fun d => d.orderId == orderId))).head?

/-- GET /delivery/orders/:orderId. The stuart argument is the outcome of
the getJobStatus call, performed only when the delivery row carries a
Stuart job reference; there is no try/catch around that call, so its
failure propagates to the surrounding 500 handler. -/
def getDeliveryStatus (db : DB) (now : Int) (orderId : String)
    (stuart : Except String JobStatus) : HandlerOut GetStatusResp :=
  match latestDeliveryFor db.deliveries orderId with
  | none => { resp := ⟨404, some "Delivery not found", none, none⟩, db := db }
  | some delivery =>
    match delivery.stuartJobId with
    | some jobId =>
      match stuart with
      | .error e =>
        { resp := ⟨500, some e, none, none⟩, db := db
          calls := [ExtCall.stuartGetJobStatus jobId] }
      | .ok jobStatus =>
        let db1 :=
          if jobStatus.status == delivery.status then db
          else
            { db with
              deliveries := updateWhere (fun d => d.id == delivery.id)
                (fun d => { d with
                            status := jobStatus.status
                            driverName := jobStatus.driverName
                            driverPhone := jobStatus.driverPhone
                            lastUpdate := some now }) db.deliveries }
        { resp := ⟨200, none, some delivery.status, some jobStatus.status⟩
          db := db1
          calls := [ExtCall.stuartGetJobStatus jobId] }
    | none =>
      { resp := ⟨200, none, some delivery.status, none⟩, db := db }

/-! ## Stuart webhook handler (routes/webhooks.js) -/

/-- Parsed body of an inbound Stuart webhook. -/
structure StuartWebhookBody where
  job_id : String
  status : String := ""
  event_type : String := ""
  deriving Repr, DecidableEq

/-- handleStuartWebhook. Appends an audit log row, looks the job up by
its provider id, and on a miss warns and answers 404; on a hit rewrites
the job row and, for a delivered event, touches the related orders and
returns. -/
def handleStuartWebhook (db : DB) (now : Int) (body : StuartWebhookBody) :
    HandlerOut Resp :=
  let log0 : WebhookLog :=
    { source := "stuart", event := "job/" ++ body.event_type
      processed := false }
  let db0 := { db with webhookLogs := db.webhookLogs ++ [log0] }
  match db0.stuartJobs.find? (fun j => j.stuartJobId == body.job_id) with
  | none =>
    { resp := ⟨404, some "Job not found"⟩, db := db0
      warns := ["Stuart job not found: " ++ body.job_id] }
  | some stuartJob =>
    let db1 := { db0 with
      stuartJobs := updateWhere (fun j => j.id == stuartJob.id)
        (fun j => { j with
                    status := body.status
                    rawData := body.job_id ++ "|" ++ body.status ++ "|"
                      ++ body.event_type })
        db0.stuartJobs }
    let db2 :=
      if body.event_type == "delivered" then
        { db1 with
          orders := updateWhere (fun o => o.stuartJobId == some stuartJob.id)
            (fun o => { o with deliveryStatus := some "DELIVERED" })
            db1.orders
          returns := updateWhere
            (fun r => r.stuartPickupJobId == some stuartJob.id)
            (fun r => { r with deliveredAt := some now }) db1.returns }
      else db1
    let log1 : WebhookLog :=
      { source := "stuart", event := "job/" ++ body.event_type
        processed := true }
    { resp := ⟨200, none⟩
      db := { db2 with webhookLogs := db2.webhookLogs ++ [log1] } }

/-! ## Product-mapping upsert (sync-products.js saveProductMapping) -/

/-- The composite unique key storeId_shopifyProductId used in the upsert
where clause. -/
def mappingKeyIs (storeId shopifyProductId : String)
    (r : ProductMapping) : Bool :=
  r.storeId == storeId && r.shopifyProductId == shopifyProductId

/-- prisma.productMapping.upsert keyed on (storeId, shopifyProductId):
when a row with that key exists it receives the new destination product
id, handle and sync timestamp; otherwise the full row is created. -/
def saveProductMapping (tbl : List ProductMapping) (m : ProductMapping) :
    List ProductMapping :=
  if tbl.any (mappingKeyIs m.storeId m.shopifyProductId) then
    updateWhere (mappingKeyIs m.storeId m.shopifyProductId)
      (fun r => { r with
                  medusaProductId := m.medusaProductId
                  medusaHandle := m.medusaHandle
                  lastSyncedAt := m.lastSyncedAt }) tbl
  else
    tbl ++ [m]

/-! ## Helper lemmas -/

theorem updateWhere_cons (p : α → Bool) (f : α → α) (x : α) (xs : List α) :
    updateWhere p f (x :: xs)
      = (if p x then f x else x) :: updateWhere p f xs := rfl

theorem length_updateWhere (p : α → Bool) (f : α → α) (l : List α) :
    (updateWhere p f l).length = l.length := by
  simp [updateWhere]

theorem find?_updateWhere (p : α → Bool) (f : α → α)
    (hf : ∀ x, p x = true → p (f x) = true) :
    ∀ (l : List α) (a : α), l.find? p = some a →
      (updateWhere p f l).find? p = some (f a) := by
  intro l
  induction l with
  | nil => intro a h; simp at h
  | cons x xs ih =>
    intro a h
    by_cases hx : p x = true
    · rw [List.find?_cons_of_pos _ hx] at h
      injection h with h
      subst h
      rw [updateWhere_cons, if_pos hx, List.find?_cons_of_pos _ (hf _ hx)]
    · rw [List.find?_cons_of_neg _ (by simp [hx])] at h
      rw [updateWhere_cons, if_neg hx,
          List.find?_cons_of_neg _ (by simp [hx])]
      exact ih a h

theorem length_insertDescBy (key : α → Int) (a : α) :
    ∀ l : List α, (insertDescBy key a l).length = l.length + 1
  | [] => rfl
  | x :: xs => by
    simp only [insertDescBy]
    split
    · simp only [List.length_cons]
    · simp only [List.length_cons, length_insertDescBy key a xs]

theorem length_sortDescBy (key : α → Int) :
    ∀ l : List α, (sortDescBy key l).length = l.length
  | [] => rfl
  | x :: xs => by
    simp only [sortDescBy, List.foldr]
    rw [length_insertDescBy]
    rw [show List.foldr (insertDescBy key) [] xs = sortDescBy key xs from rfl,
        length_sortDescBy key xs, List.length_cons]

theorem filter_updateWhere (p : α → Bool) (f : α → α)
    (hf : ∀ x, p (f x) = p x) :
    ∀ l : List α, (updateWhere p f l).filter p = (l.filter p).map f
  | [] => rfl
  | x :: xs => by
    by_cases hx : p x = true
    · rw [updateWhere_cons, if_pos hx,
          List.filter_cons_of_pos (by rw [hf]; exact hx),
          List.filter_cons_of_pos hx, List.map_cons,
          filter_updateWhere p f hf xs]
    · rw [updateWhere_cons, if_neg hx,
          List.filter_cons_of_neg (by simp [hx]),
          List.filter_cons_of_neg (by simp [hx]),
          filter_updateWhere p f hf xs]

theorem any_of_filter_length_pos {p : α → Bool} {l : List α}
    (h : 0 < (l.filter p).length) : l.any p = true := by
  obtain ⟨x, hx⟩ := List.exists_mem_of_ne_nil _ (List.length_pos.mp h)
  obtain ⟨hxl, hpx⟩ := List.mem_filter.mp hx
  exact List.any_eq_true.mpr ⟨x, hxl, hpx⟩

theorem filter_eq_nil_of_any_eq_false {p : α → Bool} {l : List α}
    (h : l.any p = false) : l.filter p = [] := by
  refine List.filter_eq_nil_iff.mpr ?_
  intro a ha hpa
  exact absurd (List.any_eq_true.mpr ⟨a, ha, hpa⟩) (by simp [h])

/-- Record updates in the return handlers never touch the row id, so the
find?-by-id predicate is stable under them. -/
theorem id_pred_stable (rid : String) (f : Return → Return)
    (hid : ∀ r, (f r).id = r.id) :
    ∀ r : Return, (r.id == rid) = true → ((f r).id == rid) = true := by
  intro r h
  rw [hid]
  exact h

/-! ## Sample rows used by the concrete witnesses and counterexamples -/

def sampleCustomer : Customer :=
  { name := "Ada", email := "ada@example.com", phone := "07700900000",
    address := "1 High Street" }

def sampleOrder : Order :=
  { id := "o1", customerId := "c1", customer := sampleCustomer,
    items := [{ id := "i1", name := "Shirt", quantity := 1 },
              { id := "i2", name := "Hat", quantity := 2 }],
    total := 5000, createdAt := 0, status := "PAID",
    stripePaymentIntentId := "pi_1", deliveryAddress := "1 High Street" }

def receivedReturn : Return :=
  { id := "r1", orderId := "o1", customerId := "c1",
    status := "RECEIVED", returnAmount := 5000 }

def approvedReturn : Return :=
  { id := "r2", orderId := "o1", customerId := "c1",
    status := "APPROVED", returnAmount := 5000 }

def refundDb : DB :=
  { orders := [sampleOrder], returns := [receivedReturn, approvedReturn] }

/-! ## Claim theorems -/

/-- C1: for a stored return whose status is not RECEIVED, processRefund
answers InvalidState (400) and performs no refund (no stripe call, store
unchanged); for a stored return in status RECEIVED whose order exists
and whose stripe call succeeds, it calls the payments gateway with the
payment intent of the order and the return amount, rewrites the return
to REFUNDED with the refund timestamp, and appends a refund record. -/
theorem C1_processRefund_spec (db : DB) (now : Int) (rid : String)
    (refund : StripeRefund) (ret : Return) (ord : Order)
    (hret : db.returns.find? (fun r => r.id == rid) = some ret) :
    (ret.status ≠ "RECEIVED" →
      processRefund db now rid (.ok refund) =
        { resp := ⟨400,
            some "Return must be received before processing refund"⟩
          db := db }) ∧
    (ret.status = "RECEIVED" →
      db.orders.find? (fun o => o.id == ret.orderId) = some ord →
      (processRefund db now rid (.ok refund)).calls =
        [ExtCall.stripeRefund ord.stripePaymentIntentId ret.returnAmount,
         ExtCall.notify "send-refund-processed"] ∧
      (processRefund db now rid (.ok refund)).db.returns.find?
          (fun r => r.id == rid) =
        some { ret with
               status := "REFUNDED"
               refundedAt := some now
               stripeRefundId := some refund.id } ∧
      (processRefund db now rid (.ok refund)).db.refunds =
        db.refunds ++
          [⟨rid, ret.orderId, ret.returnAmount, refund.id, "PROCESSED"⟩] ∧
      (processRefund db now rid (.ok refund)).resp = ⟨200, none⟩) := by
  constructor
  · intro hst
    have hb : (ret.status == "RECEIVED") = false :=
      beq_eq_false_iff_ne.mpr hst
    simp [processRefund, hret, hb]
  · intro hst hord
    have hb : (ret.status == "RECEIVED") = true := by
      rw [hst]; rfl
    have hfind := find?_updateWhere (fun r => r.id == rid)
      (fun r => { r with
                  status := "REFUNDED"
                  refundedAt := some now
                  stripeRefundId := some refund.id })
      (id_pred_stable rid _ (fun r => rfl)) db.returns ret hret
    refine ⟨?_, ?_, ?_, ?_⟩ <;>
      simp [processRefund, hret, hb, hord, hfind]

/-- C1 witness: a concrete APPROVED return is rejected with InvalidState
and a concrete RECEIVED return is refunded with a record written. -/
theorem C1_processRefund_spec_witness :
    ("APPROVED" : String) ≠ "RECEIVED" ∧
    processRefund refundDb 777 "r2" (.ok ⟨"re_1"⟩) =
      { resp := ⟨400,
          some "Return must be received before processing refund"⟩
        db := refundDb } ∧
    ("RECEIVED" : String) = "RECEIVED" ∧
    (processRefund refundDb 777 "r1" (.ok ⟨"re_1"⟩)).resp = ⟨200, none⟩ ∧
    (processRefund refundDb 777 "r1" (.ok ⟨"re_1"⟩)).db.refunds =
      [⟨"r1", "o1", 5000, "re_1", "PROCESSED"⟩] := by
  have h1 := (C1_processRefund_spec refundDb 777 "r2" ⟨"re_1"⟩
    approvedReturn sampleOrder rfl).1 (by decide)
  have h2 := (C1_processRefund_spec refundDb 777 "r1" ⟨"re_1"⟩
    receivedReturn sampleOrder rfl).2 rfl rfl
  refine ⟨by decide, h1, rfl, h2.2.2.2, ?_⟩
  rw [h2.2.2.1]
  rfl

/-- Store with one ten-day-old order and no returns yet. -/
def initDb : DB := { orders := [sampleOrder] }

/-- Branch equation for initiate: the expired branch answers 400 and
leaves the store untouched. -/
theorem initiate_expired_eq (db : DB) (now : Int) (newId : String)
    (body : InitiateBody) (oid : String) (order : Order)
    (hoid : body.orderId = some oid) (hne : (oid == "") = false)
    (hord : db.orders.find? (fun o => o.id == oid) = some order)
    (hexp : Int.fdiv (now - order.createdAt) 86400000 > 30) :
    initiate db now newId body =
      { resp := ⟨400, some "Return window expired (30 days)"⟩
        db := db } := by
  simp only [initiate, hoid, hne, hord, Bool.false_eq_true, if_false]
  rw [if_pos hexp]

/-- Branch equation for initiate: inside the window a Return in state
INITIATED is appended together with a merchant note, and the customer
notification is attempted. -/
theorem initiate_fresh_eq (db : DB) (now : Int) (newId : String)
    (body : InitiateBody) (oid : String) (order : Order)
    (hoid : body.orderId = some oid) (hne : (oid == "") = false)
    (hord : db.orders.find? (fun o => o.id == oid) = some order)
    (hfresh : ¬ Int.fdiv (now - order.createdAt) 86400000 > 30) :
    initiate db now newId body =
      { resp := ⟨201, none⟩
        db := { db with
                returns := db.returns ++
                  [{ id := newId
                     orderId := oid
                     customerId := order.customerId
                     reason := body.reason
                     itemIds := body.itemIds.getD
                       (order.items.map (fun i => i.id))
                     comments := body.comments
                     status := "INITIATED"
                     returnAmount := order.total
                     createdAt := now }]
                merchantNotes := db.merchantNotes ++
                  [{ type := "RETURN_INITIATED"
                     title := "New Return: " ++ newId
                     message := "Customer initiated return for order " ++ oid
                     relatedId := newId
                     status := "UNREAD" }] }
        calls := [ExtCall.notify "send-return-initiated"] } := by
  simp only [initiate, hoid, hne, Bool.false_eq_true, if_false, hord]
  rw [if_neg hfresh]

/-- C2 counterexample: an order aged thirty days plus one hour has age
greater than thirty days, yet initiate succeeds with 201 and creates an
INITIATED return instead of failing with Expired. -/
theorem C2_initiate_counterexample :
    ((2595600000 : Int) - sampleOrder.createdAt > 30 * 86400000) ∧
    (initiate initDb 2595600000 "r9"
      { orderId := some "o1", reason := some "wrong size" }).resp.status
        = 201 ∧
    ((initiate initDb 2595600000 "r9"
      { orderId := some "o1", reason := some "wrong size" }).db.returns.map
        (fun r => r.status)) = ["INITIATED"] := by
  have h := initiate_fresh_eq initDb 2595600000 "r9"
    { orderId := some "o1", reason := some "wrong size" } "o1" sampleOrder
    rfl rfl rfl (by decide)
  exact ⟨by decide, by rw [h], by rw [h]; rfl⟩

/-- C2 amended: for an existing order, initiate fails with Expired
precisely when the floor of the order age in whole days exceeds 30,
that is when the age reaches 31 full days; otherwise, including ages
strictly between 30 and 31 days, it answers 201 and appends a Return in
state INITIATED carrying the order total. -/
theorem C2_initiate_amended (db : DB) (now : Int) (newId : String)
    (body : InitiateBody) (oid : String) (order : Order)
    (hoid : body.orderId = some oid) (hne : (oid == "") = false)
    (hord : db.orders.find? (fun o => o.id == oid) = some order) :
    (Int.fdiv (now - order.createdAt) 86400000 > 30 →
      initiate db now newId body =
        { resp := ⟨400, some "Return window expired (30 days)"⟩
          db := db }) ∧
    (¬ Int.fdiv (now - order.createdAt) 86400000 > 30 →
      (initiate db now newId body).resp = ⟨201, none⟩ ∧
      (initiate db now newId body).db.returns =
        db.returns ++
          [{ id := newId
             orderId := oid
             customerId := order.customerId
             reason := body.reason
             itemIds := body.itemIds.getD (order.items.map (fun i => i.id))
             comments := body.comments
             status := "INITIATED"
             returnAmount := order.total
             createdAt := now }]) := by
  constructor
  · intro hexp
    exact initiate_expired_eq db now newId body oid order hoid hne hord hexp
  · intro hfresh
    rw [initiate_fresh_eq db now newId body oid order hoid hne hord hfresh]
    exact ⟨rfl, rfl⟩

/-- C2 amended witness: at 31 days the window is closed, at 10 days a
return is created. -/
theorem C2_initiate_amended_witness :
    (Int.fdiv ((2678400000 : Int) - sampleOrder.createdAt) 86400000 > 30) ∧
    initiate initDb 2678400000 "r9" { orderId := some "o1" } =
      { resp := ⟨400, some "Return window expired (30 days)"⟩
        db := initDb } ∧
    ¬ (Int.fdiv ((864000000 : Int) - sampleOrder.createdAt) 86400000 > 30) ∧
    (initiate initDb 864000000 "r9" { orderId := some "o1" }).resp
      = ⟨201, none⟩ := by
  have h1 := (C2_initiate_amended initDb 2678400000 "r9"
    { orderId := some "o1" } "o1" sampleOrder rfl rfl rfl).1 (by decide)
  have h2 := (C2_initiate_amended initDb 864000000 "r9"
    { orderId := some "o1" } "o1" sampleOrder rfl rfl rfl).2 (by decide)
  exact ⟨by decide, h1, by decide, h2.1⟩

/-- C9: a successful initiate call without itemIds records as returned
items exactly the item ids of the owning order. -/
theorem C9_initiate_default_items (db : DB) (now : Int) (newId : String)
    (body : InitiateBody) (oid : String) (order : Order)
    (hoid : body.orderId = some oid) (hne : (oid == "") = false)
    (hord : db.orders.find? (fun o => o.id == oid) = some order)
    (hfresh : ¬ Int.fdiv (now - order.createdAt) 86400000 > 30)
    (hitems : body.itemIds = none) :
    (initiate db now newId body).resp = ⟨201, none⟩ ∧
    ((initiate db now newId body).db.returns.getLast?).map
      (fun r => r.itemIds) = some (order.items.map (fun i => i.id)) := by
  rw [initiate_fresh_eq db now newId body oid order hoid hne hord hfresh]
  refine ⟨rfl, ?_⟩
  rw [hitems]
  simp

/-- C9 witness: a concrete initiate call without itemIds returns the two
item ids of the sample order. -/
theorem C9_initiate_default_items_witness :
    (initiate initDb 864000000 "r9" { orderId := some "o1" }).resp
      = ⟨201, none⟩ ∧
    ((initiate initDb 864000000 "r9"
      { orderId := some "o1" }).db.returns.getLast?).map
        (fun r => r.itemIds) = some ["i1", "i2"] :=
  C9_initiate_default_items initDb 864000000 "r9" { orderId := some "o1" }
    "o1" sampleOrder rfl rfl rfl (by decide) rfl

/-- Store with one order and one pending-approval return. -/
def approveDb : DB :=
  { orders := [sampleOrder]
    returns := [{ id := "r3", orderId := "o1", customerId := "c1"
                  status := "PENDING_APPROVAL" }] }

/-- Branch equation for approve: when the courier call fails, only the
first update (APPROVED, approval timestamp, return amount) has run. -/
theorem approve_error_eq (db : DB) (now : Int) (rid : String)
    (amt : Option Int) (e : String) (ret : Return) (ord : Order)
    (hret : db.returns.find? (fun r => r.id == rid) = some ret)
    (hord : db.orders.find? (fun o => o.id == ret.orderId) = some ord) :
    approve db now rid amt (.error e) =
      { resp := ⟨500, some e⟩
        db := { db with
                returns := updateWhere (fun r => r.id == rid)
                  (fun r => { r with
                              status := "APPROVED"
                              approvedAt := some now
                              returnAmount := jsNumOr amt ord.total })
                  db.returns }
        calls := [ExtCall.stuartCreatePickup ret.orderId] } := by
  simp only [approve, hret, hord]

/-- Branch equation for approve: when the courier call succeeds the
second update records the job reference, advances to PICKUP_SCHEDULED
and stores the pickup date. -/
theorem approve_ok_eq (db : DB) (now : Int) (rid : String)
    (amt : Option Int) (job : PickupJob) (ret : Return) (ord : Order)
    (hret : db.returns.find? (fun r => r.id == rid) = some ret)
    (hord : db.orders.find? (fun o => o.id == ret.orderId) = some ord) :
    approve db now rid amt (.ok job) =
      { resp := ⟨200, none⟩
        db := { db with
                returns := updateWhere (fun r => r.id == rid)
                  (fun r => { r with
                              stuartJobId := some job.id
                              status := "PICKUP_SCHEDULED"
                              pickupDate := some job.scheduledDate })
                  (updateWhere (fun r => r.id == rid)
                    (fun r => { r with
                                status := "APPROVED"
                                approvedAt := some now
                                returnAmount := jsNumOr amt ord.total })
                    db.returns) }
        calls := [ExtCall.stuartCreatePickup ret.orderId,
                  ExtCall.notify "send-return-approved"] } := by
  simp only [approve, hret, hord]

/-- C3: when the courier job-creation call throws during approve of an
existing return that carries no job reference, the stored return ends in
status APPROVED with its job reference still absent, not
PICKUP_SCHEDULED. -/
theorem C3_approve_courier_failure (db : DB) (now : Int) (rid : String)
    (amt : Option Int) (e : String) (ret : Return) (ord : Order)
    (hret : db.returns.find? (fun r => r.id == rid) = some ret)
    (hord : db.orders.find? (fun o => o.id == ret.orderId) = some ord)
    (hjob : ret.stuartJobId = none) :
    (approve db now rid amt (.error e)).db.returns.find?
        (fun r => r.id == rid) =
      some { ret with
             status := "APPROVED"
             approvedAt := some now
             returnAmount := jsNumOr amt ord.total } ∧
    ((approve db now rid amt (.error e)).db.returns.find?
        (fun r => r.id == rid)).map
      (fun r => (r.status, r.stuartJobId)) = some ("APPROVED", none) := by
  have hfind := find?_updateWhere (fun r => r.id == rid)
    (fun r => { r with
                status := "APPROVED"
                approvedAt := some now
                returnAmount := jsNumOr amt ord.total })
    (id_pred_stable rid _ (fun r => rfl)) db.returns ret hret
  rw [approve_error_eq db now rid amt e ret ord hret hord]
  exact ⟨hfind, by rw [hfind]; simp [hjob]⟩

/-- C3 witness: approving a concrete pending return while the courier
throws leaves it APPROVED with no job reference. -/
theorem C3_approve_courier_failure_witness :
    ((approve approveDb 999 "r3" none (.error "stuart down")).db.returns.find?
        (fun r => r.id == "r3")).map
      (fun r => (r.status, r.stuartJobId)) = some ("APPROVED", none) :=
  (C3_approve_courier_failure approveDb 999 "r3" none "stuart down"
    { id := "r3", orderId := "o1", customerId := "c1"
      status := "PENDING_APPROVAL" }
    sampleOrder rfl rfl rfl).2

/-- C10: an approve call without a returnAmount argument persists the
order total as the return amount. -/
theorem C10_approve_default_amount (db : DB) (now : Int) (rid : String)
    (job : PickupJob) (ret : Return) (ord : Order)
    (hret : db.returns.find? (fun r => r.id == rid) = some ret)
    (hord : db.orders.find? (fun o => o.id == ret.orderId) = some ord) :
    ((approve db now rid none (.ok job)).db.returns.find?
        (fun r => r.id == rid)).map (fun r => r.returnAmount) =
      some ord.total ∧
    (approve db now rid none (.ok job)).resp = ⟨200, none⟩ := by
  have hf1 := find?_updateWhere (fun r => r.id == rid)
    (fun r => { r with
                status := "APPROVED"
                approvedAt := some now
                returnAmount := jsNumOr none ord.total })
    (id_pred_stable rid _ (fun r => rfl)) db.returns ret hret
  have hf2 := find?_updateWhere (fun r => r.id == rid)
    (fun (r : Return) => { r with
                           stuartJobId := some job.id
                           status := "PICKUP_SCHEDULED"
                           pickupDate := some job.scheduledDate })
    (id_pred_stable rid _ (fun r => rfl)) _ _ hf1
  rw [approve_ok_eq db now rid none job ret ord hret hord]
  exact ⟨by rw [hf2]; simp [jsNumOr], rfl⟩

/-- C10 witness: approving a concrete return without an amount stores
the 5000 order total. -/
theorem C10_approve_default_amount_witness :
    ((approve approveDb 999 "r3" none
        (.ok ⟨"sj1", 123⟩)).db.returns.find?
      (fun r => r.id == "r3")).map (fun r => r.returnAmount) =
      some sampleOrder.total ∧
    (approve approveDb 999 "r3" none (.ok ⟨"sj1", 123⟩)).resp
      = ⟨200, none⟩ :=
  C10_approve_default_amount approveDb 999 "r3" ⟨"sj1", 123⟩
    { id := "r3", orderId := "o1", customerId := "c1"
      status := "PENDING_APPROVAL" }
    sampleOrder rfl rfl

/-- Quote whose expiry lies in the past while its stored status is still
ACTIVE (nothing in the source ever flips an overdue quote to EXPIRED). -/
def activeStaleQuote : DeliveryQuote :=
  { id := "q1", orderId := "o1", price := 900
    expiresAt := -100, status := "ACTIVE" }

def confirmDb : DB :=
  { orders := [sampleOrder], deliveryQuotes := [activeStaleQuote] }

/-- C4 counterexample: confirm never reads expiresAt. With the request
taken at time 0, a quote expired at time -100 but still stored ACTIVE is
accepted: the call answers 200 and a Delivery row is created, where the
claim demands an InvalidState failure and no Delivery. -/
theorem C4_confirm_counterexample :
    activeStaleQuote.expiresAt < 0 ∧
    (confirm confirmDb "o1" (some "q1")
      (.ok ⟨"sj1", 500⟩) "d1").resp.status = 200 ∧
    (confirm confirmDb "o1" (some "q1")
      (.ok ⟨"sj1", 500⟩) "d1").db.deliveries.length = 1 := by
  decide

/-- C4 amended: confirm answers the InvalidState failure (400, Quote
not found or expired) exactly when the referenced quote is missing or
its stored status is not ACTIVE, and then the store is unchanged so no
Delivery is created; when the quote is stored ACTIVE that failure never
occurs, and with the order present and the courier call succeeding the
call answers 200 and appends a Delivery row. The quote expiry timestamp
is unconstrained throughout, so a past-expiry quote still stored ACTIVE
is confirmed. -/
theorem C4_confirm_amended (db : DB) (orderId qid : String)
    (q : DeliveryQuote) (ord : Order) (job : DeliveryJob)
    (stuart : Except String DeliveryJob) (newId : String)
    (hne : (qid == "") = false) :
    (db.deliveryQuotes.find? (fun x => x.id == qid) = none →
      confirm db orderId (some qid) stuart newId =
        { resp := ⟨400, some "Quote not found or expired"⟩, db := db }) ∧
    (db.deliveryQuotes.find? (fun x => x.id == qid) = some q →
      q.status ≠ "ACTIVE" →
      confirm db orderId (some qid) stuart newId =
        { resp := ⟨400, some "Quote not found or expired"⟩, db := db }) ∧
    (db.deliveryQuotes.find? (fun x => x.id == qid) = some q →
      q.status = "ACTIVE" →
      (confirm db orderId (some qid) stuart newId).resp ≠
        ⟨400, some "Quote not found or expired"⟩) ∧
    (db.deliveryQuotes.find? (fun x => x.id == qid) = some q →
      q.status = "ACTIVE" →
      db.orders.find? (fun o => o.id == orderId) = some ord →
      stuart = .ok job →
      (confirm db orderId (some qid) stuart newId).resp = ⟨200, none⟩ ∧
      (confirm db orderId (some qid) stuart newId).db.deliveries =
        db.deliveries ++
          [{ id := newId
             orderId := orderId
             stuartJobId := some job.id
             customerName := ord.customer.name
             customerPhone := ord.customer.phone
             customerEmail := ord.customer.email
             deliveryAddress := ord.deliveryAddress
             status := "CONFIRMED"
             price := q.price
             estimatedDeliveryTime := some job.scheduledDate
             quoteId := some qid }]) := by
  refine ⟨?_, ?_, ?_, ?_⟩
  · intro hq
    simp [confirm, hne, hq]
  · intro hq hst
    have hb : (q.status == "ACTIVE") = false := beq_eq_false_iff_ne.mpr hst
    simp [confirm, hne, hq, hb]
  · intro hq hst
    have hb : (q.status == "ACTIVE") = true := by rw [hst]; rfl
    cases horder : db.orders.find? (fun o => o.id == orderId) with
    | none =>
      simp [confirm, hne, hq, hb, horder]
    | some o =>
      cases stuart with
      | error e => simp [confirm, hne, hq, hb, horder]
      | ok j => simp [confirm, hne, hq, hb, horder]
  · intro hq hst horder hstu
    have hb : (q.status == "ACTIVE") = true := by rw [hst]; rfl
    subst hstu
    exact ⟨by simp [confirm, hne, hq, hb, horder],
           by simp [confirm, hne, hq, hb, horder]⟩

def expiredQuoteDb : DB :=
  { orders := [sampleOrder]
    deliveryQuotes := [{ id := "q2", orderId := "o1", price := 900
                         expiresAt := -100, status := "EXPIRED" }] }

/-- C4 amended witness: an unknown quote id and a quote stored EXPIRED
are both rejected with the InvalidState failure and an unchanged store,
while a past-expiry quote still stored ACTIVE never receives that
failure and is confirmed with a Delivery row appended. -/
theorem C4_confirm_amended_witness :
    confirmDb.deliveryQuotes.find? (fun x => x.id == "qX") = none ∧
    confirm confirmDb "o1" (some "qX") (.ok ⟨"sj1", 500⟩) "d1" =
      { resp := ⟨400, some "Quote not found or expired"⟩
        db := confirmDb } ∧
    ("EXPIRED" : String) ≠ "ACTIVE" ∧
    confirm expiredQuoteDb "o1" (some "q2") (.ok ⟨"sj1", 500⟩) "d1" =
      { resp := ⟨400, some "Quote not found or expired"⟩
        db := expiredQuoteDb } ∧
    activeStaleQuote.status = "ACTIVE" ∧
    activeStaleQuote.expiresAt < 0 ∧
    (confirm confirmDb "o1" (some "q1") (.ok ⟨"sj1", 500⟩) "d1").resp ≠
      ⟨400, some "Quote not found or expired"⟩ ∧
    (confirm confirmDb "o1" (some "q1") (.ok ⟨"sj1", 500⟩) "d1").resp
      = ⟨200, none⟩ ∧
    (confirm confirmDb "o1" (some "q1")
        (.ok ⟨"sj1", 500⟩) "d1").db.deliveries =
      confirmDb.deliveries ++
        [{ id := "d1"
           orderId := "o1"
           stuartJobId := some "sj1"
           customerName := sampleOrder.customer.name
           customerPhone := sampleOrder.customer.phone
           customerEmail := sampleOrder.customer.email
           deliveryAddress := sampleOrder.deliveryAddress
           status := "CONFIRMED"
           price := activeStaleQuote.price
           estimatedDeliveryTime := some 500
           quoteId := some "q1" }] := by
  have hmiss := (C4_confirm_amended confirmDb "o1" "qX" activeStaleQuote
    sampleOrder ⟨"sj1", 500⟩ (.ok ⟨"sj1", 500⟩) "d1" rfl).1 rfl
  have hexp := (C4_confirm_amended expiredQuoteDb "o1" "q2"
    { id := "q2", orderId := "o1", price := 900
      expiresAt := -100, status := "EXPIRED" }
    sampleOrder ⟨"sj1", 500⟩ (.ok ⟨"sj1", 500⟩) "d1" rfl).2.1 rfl
    (by decide)
  have hnever := (C4_confirm_amended confirmDb "o1" "q1" activeStaleQuote
    sampleOrder ⟨"sj1", 500⟩ (.ok ⟨"sj1", 500⟩) "d1" rfl).2.2.1 rfl rfl
  have hok := (C4_confirm_amended confirmDb "o1" "q1" activeStaleQuote
    sampleOrder ⟨"sj1", 500⟩ (.ok ⟨"sj1", 500⟩) "d1" rfl).2.2.2 rfl rfl
    rfl rfl
  exact ⟨rfl, hmiss, by decide, hexp, rfl, by decide, hnever,
         hok.1, hok.2⟩

/-- Delivery row carrying a courier job reference. -/
def confirmedDelivery : Delivery :=
  { id := "d1", orderId := "o1", stuartJobId := some "sj"
    status := "CONFIRMED", createdAt := 5 }

def statusDb : DB := { deliveries := [confirmedDelivery] }

/-- C5 counterexample: with a persisted delivery that has a courier job
reference, a failing courier gateway call makes the whole request fail
with 500; the last persisted status is not returned, where the claim
demands a cache fallback to it. -/
theorem C5_getStatus_counterexample :
    (getDeliveryStatus statusDb 0 "o1"
      (.error "gateway down")).resp.status = 500 ∧
    (getDeliveryStatus statusDb 0 "o1"
      (.error "gateway down")).resp.deliveryStatus = none := by
  decide

/-- C5 amended: when the most recent delivery for the order carries a
courier job reference and the gateway call fails, the request fails with
500 carrying the gateway message; the store is left unchanged and the
persisted status is not echoed back. -/
theorem C5_getStatus_amended (db : DB) (now : Int) (orderId : String)
    (e : String) (d : Delivery) (jobId : String)
    (hd : latestDeliveryFor db.deliveries orderId = some d)
    (hjob : d.stuartJobId = some jobId) :
    getDeliveryStatus db now orderId (.error e) =
      { resp := ⟨500, some e, none, none⟩
        db := db
        calls := [ExtCall.stuartGetJobStatus jobId] } := by
  simp [getDeliveryStatus, hd, hjob]

/-- C5 amended witness: the concrete gateway failure surfaces as 500. -/
theorem C5_getStatus_amended_witness :
    getDeliveryStatus statusDb 0 "o1" (.error "gateway down") =
      { resp := ⟨500, some "gateway down", none, none⟩
        db := statusDb
        calls := [ExtCall.stuartGetJobStatus "sj"] } :=
  C5_getStatus_amended statusDb 0 "o1" "gateway down"
    confirmedDelivery "sj" rfl rfl

def webhookDb : DB :=
  { orders := [sampleOrder], returns := [approvedReturn]
    deliveries := [confirmedDelivery] }

/-- Webhook reporting a delivered job that no local row matches. -/
def strayBody : StuartWebhookBody :=
  { job_id := "sj9", status := "delivered", event_type := "delivered" }

/-- C6 counterexample: for a delivered event with no matching local
Stuart job the handler answers 404 with an error body, not a success
acknowledgement; orders, returns and deliveries are untouched and the
not-found condition is logged. -/
theorem C6_webhook_counterexample :
    (handleStuartWebhook webhookDb 0 strayBody).resp
      = ⟨404, some "Job not found"⟩ ∧
    (handleStuartWebhook webhookDb 0 strayBody).db.orders
      = webhookDb.orders ∧
    (handleStuartWebhook webhookDb 0 strayBody).db.returns
      = webhookDb.returns ∧
    (handleStuartWebhook webhookDb 0 strayBody).db.deliveries
      = webhookDb.deliveries ∧
    (handleStuartWebhook webhookDb 0 strayBody).warns
      = ["Stuart job not found: sj9"] := by
  decide

/-- C6 amended: on a webhook whose job id matches no local Stuart job
the handler answers 404 Job not found (an error acknowledgement, not a
success one), logs the not-found warning, and mutates nothing except
appending the webhook audit log row. -/
theorem C6_webhook_amended (db : DB) (now : Int)
    (body : StuartWebhookBody)
    (hmiss : db.stuartJobs.find?
      (fun j => j.stuartJobId == body.job_id) = none) :
    handleStuartWebhook db now body =
      { resp := ⟨404, some "Job not found"⟩
        db := { db with
                webhookLogs := db.webhookLogs ++
                  [{ source := "stuart"
                     event := "job/" ++ body.event_type
                     processed := false }] }
        warns := ["Stuart job not found: " ++ body.job_id] } := by
  simp [handleStuartWebhook, hmiss]

/-- C6 amended witness: the concrete stray delivered event. -/
theorem C6_webhook_amended_witness :
    handleStuartWebhook webhookDb 0 strayBody =
      { resp := ⟨404, some "Job not found"⟩
        db := { webhookDb with
                webhookLogs := [{ source := "stuart"
                                  event := "job/delivered"
                                  processed := false }] }
        warns := ["Stuart job not found: sj9"] } := by
  rw [C6_webhook_amended webhookDb 0 strayBody rfl]
  rfl

/-- Store used by the listing witness: two INITIATED returns, one other,
one CONFIRMED delivery. -/
def listDb : DB :=
  { returns := [{ id := "r1", status := "INITIATED", createdAt := 3 },
                { id := "r2", status := "INITIATED", createdAt := 1 },
                { id := "r3", status := "APPROVED", createdAt := 2 }]
    deliveries := [confirmedDelivery] }

/-- C7: for recognized statuses both list-by-status routes return at
most min(limit, 100) items, and a total equal to the unfiltered row
count for that status, independent of limit and offset. -/
theorem C7_listByStatus_bounds (db : DB) (rs ds : String)
    (limit offset : Nat)
    (hrs : rs ∈ RETURN_STATUS_VALUES)
    (hds : ds ∈ DELIVERY_STATUS_VALUES) :
    (listReturnsByStatus db rs limit offset).items.length
      ≤ min limit 100 ∧
    (listReturnsByStatus db rs limit offset).total
      = (db.returns.filter (fun r => r.status == rs)).length ∧
    (listDeliveriesByStatus db ds limit offset).items.length
      ≤ min limit 100 ∧
    (listDeliveriesByStatus db ds limit offset).total
      = (db.deliveries.filter (fun d => d.status == ds)).length := by
  refine ⟨?_, ?_, ?_, ?_⟩
  · have h : (listReturnsByStatus db rs limit offset).items
        = ((sortDescBy (fun r => r.createdAt)
            (db.returns.filter (fun r => r.status == rs))).drop
              offset).take (min limit 100) := by
      simp [listReturnsByStatus, hrs]
    rw [h, List.length_take]
    exact min_le_left _ _
  · simp [listReturnsByStatus, hrs]
  · have h : (listDeliveriesByStatus db ds limit offset).items
        = ((sortDescBy (fun d => d.createdAt)
            (db.deliveries.filter (fun d => d.status == ds))).drop
              offset).take (min limit 100) := by
      simp [listDeliveriesByStatus, hds]
    rw [h, List.length_take]
    exact min_le_left _ _
  · simp [listDeliveriesByStatus, hds]

/-- C7 witness: concrete listings with limit 1 stay within the cap while
the totals still count every row of the status. -/
theorem C7_listByStatus_bounds_witness :
    "INITIATED" ∈ RETURN_STATUS_VALUES ∧
    "CONFIRMED" ∈ DELIVERY_STATUS_VALUES ∧
    (listReturnsByStatus listDb "INITIATED" 1 0).items.length
      ≤ min 1 100 ∧
    (listReturnsByStatus listDb "INITIATED" 1 0).total
      = (listDb.returns.filter (fun r => r.status == "INITIATED")).length ∧
    (listDeliveriesByStatus listDb "CONFIRMED" 1 0).items.length
      ≤ min 1 100 ∧
    (listDeliveriesByStatus listDb "CONFIRMED" 1 0).total
      = (listDb.deliveries.filter
          (fun d => d.status == "CONFIRMED")).length := by
  have h := C7_listByStatus_bounds listDb "INITIATED" "CONFIRMED" 1 0
    (by decide) (by decide)
  exact ⟨by decide, by decide, h.1, h.2.1, h.2.2.1, h.2.2.2⟩

/-- A list with a row satisfying the predicate keeps a nonempty filter. -/
theorem filter_length_pos_of_any {p : α → Bool} {l : List α}
    (h : l.any p = true) : 0 < (l.filter p).length := by
  obtain ⟨x, hx, hpx⟩ := List.any_eq_true.mp h
  exact List.length_pos.mpr
    (List.ne_nil_of_mem (List.mem_filter.mpr ⟨hx, hpx⟩))

/-- One upsert leaves exactly one row under its own key when at most one
was there, and in general never lowers the count below one. -/
theorem save_key_count (tbl : List ProductMapping) (m : ProductMapping) :
    ((saveProductMapping tbl m).filter
      (mappingKeyIs m.storeId m.shopifyProductId)).length =
    max 1 ((tbl.filter
      (mappingKeyIs m.storeId m.shopifyProductId)).length) := by
  by_cases hany :
      tbl.any (mappingKeyIs m.storeId m.shopifyProductId) = true
  · rw [saveProductMapping, if_pos hany,
        filter_updateWhere (mappingKeyIs m.storeId m.shopifyProductId)
          (fun r => { r with
                      medusaProductId := m.medusaProductId
                      medusaHandle := m.medusaHandle
                      lastSyncedAt := m.lastSyncedAt })
          (fun x => rfl) tbl,
        List.length_map]
    have hpos := filter_length_pos_of_any hany
    omega
  · have hany' : tbl.any (mappingKeyIs m.storeId m.shopifyProductId)
        = false := by
      revert hany
      cases tbl.any (mappingKeyIs m.storeId m.shopifyProductId) <;> simp
    rw [saveProductMapping, if_neg hany, List.filter_append,
        filter_eq_nil_of_any_eq_false hany']
    simp [mappingKeyIs]

/-- C8: two upserts keyed on the same (store, source product) pair leave
exactly one row for that key, the second changes no row count, and the
surviving key row carries the destination id and sync timestamp of the
second upsert. -/
theorem C8_productMapping_upsert (tbl : List ProductMapping)
    (m1 m2 : ProductMapping)
    (hs : m1.storeId = m2.storeId)
    (hp : m1.shopifyProductId = m2.shopifyProductId)
    (huniq : (tbl.filter
      (mappingKeyIs m2.storeId m2.shopifyProductId)).length ≤ 1) :
    ((saveProductMapping (saveProductMapping tbl m1) m2).filter
      (mappingKeyIs m2.storeId m2.shopifyProductId)).length = 1 ∧
    (saveProductMapping (saveProductMapping tbl m1) m2).length
      = (saveProductMapping tbl m1).length ∧
    ((saveProductMapping (saveProductMapping tbl m1) m2).filter
      (mappingKeyIs m2.storeId m2.shopifyProductId)).all
      (fun r => r.medusaProductId == m2.medusaProductId
        && r.lastSyncedAt == m2.lastSyncedAt) = true := by
  have h1 : ((saveProductMapping tbl m1).filter
      (mappingKeyIs m2.storeId m2.shopifyProductId)).length = 1 := by
    have h := save_key_count tbl m1
    rw [hs, hp] at h
    rw [h]
    omega
  have hany2 : (saveProductMapping tbl m1).any
      (mappingKeyIs m2.storeId m2.shopifyProductId) = true :=
    any_of_filter_length_pos (by rw [h1]; omega)
  have hsave2 : saveProductMapping (saveProductMapping tbl m1) m2 =
      updateWhere (mappingKeyIs m2.storeId m2.shopifyProductId)
        (fun r => { r with
                    medusaProductId := m2.medusaProductId
                    medusaHandle := m2.medusaHandle
                    lastSyncedAt := m2.lastSyncedAt })
        (saveProductMapping tbl m1) := by
    rw [saveProductMapping, if_pos hany2]
  have hmap := filter_updateWhere
    (mappingKeyIs m2.storeId m2.shopifyProductId)
    (fun r => { r with
                medusaProductId := m2.medusaProductId
                medusaHandle := m2.medusaHandle
                lastSyncedAt := m2.lastSyncedAt })
    (fun x => rfl) (saveProductMapping tbl m1)
  refine ⟨?_, ?_, ?_⟩
  · rw [hsave2, hmap, List.length_map, h1]
  · rw [hsave2, length_updateWhere]
  · rw [hsave2, hmap]
    refine List.all_eq_true.mpr ?_
    intro r hr
    obtain ⟨x, hx, rfl⟩ := List.mem_map.mp hr
    simp

def mapA : ProductMapping :=
  { storeId := "s1", shopifyProductId := "shp1"
    medusaProductId := "medA", medusaHandle := "h1", lastSyncedAt := 1 }

def mapB : ProductMapping :=
  { storeId := "s1", shopifyProductId := "shp1"
    medusaProductId := "medB", medusaHandle := "h2", lastSyncedAt := 2 }

/-- C8 witness: upserting the same key twice into an empty table ends
with a single row carrying the data of the second upsert. -/
theorem C8_productMapping_upsert_witness :
    mapA.storeId = mapB.storeId ∧
    mapA.shopifyProductId = mapB.shopifyProductId ∧
    ((saveProductMapping (saveProductMapping [] mapA) mapB).filter
      (mappingKeyIs mapB.storeId mapB.shopifyProductId)).length = 1 ∧
    (saveProductMapping (saveProductMapping [] mapA) mapB).length
      = (saveProductMapping [] mapA).length ∧
    ((saveProductMapping (saveProductMapping [] mapA) mapB).filter
      (mappingKeyIs mapB.storeId mapB.shopifyProductId)).all
      (fun r => r.medusaProductId == mapB.medusaProductId
        && r.lastSyncedAt == mapB.lastSyncedAt) = true := by
  have h := C8_productMapping_upsert [] mapA mapB rfl rfl (by decide)
  exact ⟨rfl, rfl, h.1, h.2.1, h.2.2⟩

end SMC
